import Mathlib

/-!
Verification of the GPA / CGPA calculator (`src/gpa.py`).

The core logic of the program is shallowly embedded over exact rational
arithmetic: marks and grade points become `ℚ`, credit hours become `ℕ`
(the program forces them to `int`), and the accumulation loop over the
course rows becomes a `List.foldl` over a list of `CourseRecord`s.
-/

namespace GpaCalc

/-- A course row as assembled by the input loop: subject name, marks
(`0`–`100` in the UI, but the mapping is total over `ℚ`), and credit
hours (forced to `int` by the program). -/
structure CourseRecord where
  name : String
  marks : ℚ
  credits : ℕ
  deriving Repr, DecidableEq

/-- `marks_to_gpa` from `src/gpa.py` lines 13–33: descending threshold
table from marks to grade point, each threshold inclusive. -/
def marks_to_gpa (marks : ℚ) : ℚ :=
  if marks ≥ 85 then 4.0
  else if marks ≥ 80 then 3.7
  else if marks ≥ 75 then 3.3
  else if marks ≥ 70 then 3.0
  else if marks ≥ 65 then 2.7
  else if marks ≥ 61 then 2.3
  else if marks ≥ 58 then 2.0
  else if marks ≥ 55 then 1.7
  else if marks ≥ 50 then 1.0
  else 0.0

/-- `gpa_to_letter` from `src/gpa.py` lines 36–53: descending threshold
table from grade point to letter grade. -/
def gpa_to_letter (gpa : ℚ) : String :=
  if gpa ≥ 3.7 then "A"
  else if gpa ≥ 3.3 then "A-"
  else if gpa ≥ 3.0 then "B+"
  else if gpa ≥ 2.7 then "B"
  else if gpa ≥ 2.3 then "B-"
  else if gpa ≥ 2.0 then "C+"
  else if gpa ≥ 1.7 then "C"
  else if gpa ≥ 1.0 then "D"
  else "F"

/-- One iteration of the accumulation loop (`src/gpa.py` lines 84–85):
add this row's quality points to `total_points` and its credit hours to
`total_credits`. -/
def accumRow (acc : ℚ × ℕ) (r : CourseRecord) : ℚ × ℕ :=
  (acc.1 + marks_to_gpa r.marks * (r.credits : ℚ), acc.2 + r.credits)

/-- The accumulation loop over all rows, starting from
`total_points = 0.0`, `total_credits = 0` (`src/gpa.py` lines 60–85). -/
def semLoop (rows : List CourseRecord) : ℚ × ℕ :=
  rows.foldl accumRow (0, 0)

/-- `total_points` after the loop. -/
def total_points (rows : List CourseRecord) : ℚ :=
  (semLoop rows).1

/-- `total_credits` after the loop. -/
def total_credits (rows : List CourseRecord) : ℕ :=
  (semLoop rows).2

/-- `current_gpa` (`src/gpa.py` lines 88–91): quality points over credit
hours, with the zero-credit case defined as `0.0`. -/
def current_gpa (rows : List CourseRecord) : ℚ :=
  if total_credits rows > 0 then total_points rows / (total_credits rows : ℚ)
  else 0.0

/-- The semester summary the program reports: the GPA and the total
credit hours of the semester. -/
structure SemesterSummary where
  gpa : ℚ
  totalCredits : ℕ
  deriving Repr, DecidableEq

/-- The semester computation as a whole: rows in, summary out. -/
def computeSemesterGPA (rows : List CourseRecord) : SemesterSummary :=
  { gpa := current_gpa rows, totalCredits := total_credits rows }

/-- Prior cumulative history: a CGPA and the credit hours it covers. -/
structure CumulativeState where
  cgpa : ℚ
  totalCredits : ℕ
  deriving Repr, DecidableEq

/-- `new_cgpa` (`src/gpa.py` lines 109–112): blend the previous CGPA
with the current semester GPA, weighted by credits, guarded by
`prev_credits > 0`. -/
def new_cgpa (prev_cgpa : ℚ) (prev_credits : ℕ) (cur_gpa : ℚ)
    (cur_credits : ℕ) : ℚ :=
  if prev_credits > 0 then
    (prev_cgpa * (prev_credits : ℚ) + cur_gpa * (cur_credits : ℚ)) /
      ((prev_credits : ℚ) + (cur_credits : ℚ))
  else cur_gpa

/-- `projected_overall_cgpa` (`src/gpa.py` lines 184–191): fold a
hypothetical future semester into the already-updated history.  The base
CGPA is `new_cgpa` (which already includes the current semester) and the
base credits are `prev_credits + total_credits`. -/
def projected_overall_cgpa (prev_cgpa : ℚ) (prev_credits : ℕ)
    (rows proj_rows : List CourseRecord) : ℚ :=
  let base_total_credits : ℕ := prev_credits + total_credits rows
  let base_cgpa : ℚ :=
    new_cgpa prev_cgpa prev_credits (current_gpa rows) (total_credits rows)
  let projected_sem_gpa : ℚ := current_gpa proj_rows
  let proj_total_credits : ℕ := total_credits proj_rows
  if base_total_credits + proj_total_credits > 0 then
    (base_cgpa * (base_total_credits : ℚ) +
        projected_sem_gpa * (proj_total_credits : ℚ)) /
      ((base_total_credits : ℚ) + (proj_total_credits : ℚ))
  else projected_sem_gpa

/-- The `combine` contract as the spec words it (section 4.3): the new
CGPA is the credit-weighted blend whenever the combined credit total is
positive, else the current semester's GPA alone. -/
def combineSpec (prior : CumulativeState) (current : SemesterSummary) :
    CumulativeState :=
  let newTotalCredits : ℕ := prior.totalCredits + current.totalCredits
  { cgpa :=
      if newTotalCredits > 0 then
        (prior.cgpa * (prior.totalCredits : ℚ) +
            current.gpa * (current.totalCredits : ℚ)) /
          (newTotalCredits : ℚ)
      else current.gpa,
    totalCredits := newTotalCredits }

/-- Quality points of one row: grade point times credit hours. -/
def qualityPoints (r : CourseRecord) : ℚ :=
  marks_to_gpa r.marks * (r.credits : ℚ)

/-- The letter-grade table as the spec states it, read as ascending
half-open intervals whose lower bounds are the spec's thresholds
3.7, 3.3, 3.0, 2.7, 2.3, 2.0, 1.7, 1.0, each inclusive on its lower
bound, with "F" below them all. -/
def gpaToLetterSpec (gp : ℚ) : String :=
  if gp < 1.0 then "F"
  else if gp < 1.7 then "D"
  else if gp < 2.0 then "C"
  else if gp < 2.3 then "C+"
  else if gp < 2.7 then "B-"
  else if gp < 3.0 then "B"
  else if gp < 3.3 then "B+"
  else if gp < 3.7 then "A-"
  else "A"

/-- A dynamically typed (Python) value reaching `marks_to_gpa`: a
number, `None` (absent), or a string (non-numeric). -/
inductive PyVal where
  | num : ℚ → PyVal
  | none : PyVal
  | str : String → PyVal
  deriving Repr, DecidableEq

/-- Python's `v >= n` against a numeric literal `n`: defined for
numbers, a `TypeError` for `None` and for strings. -/
def pyGe (v : PyVal) (n : ℚ) : Except String Bool :=
  match v with
  | .num m => .ok (decide (m ≥ n))
  | .none => .error "TypeError"
  | .str _ => .error "TypeError"

/-- `marks_to_gpa` as Python executes it on a dynamically typed
argument: every `marks >= c` comparison can raise, and the first raised
`TypeError` propagates out. -/
def marks_to_gpa_dyn (marks : PyVal) : Except String ℚ := do
  if ← pyGe marks 85 then return 4.0
  else if ← pyGe marks 80 then return 3.7
  else if ← pyGe marks 75 then return 3.3
  else if ← pyGe marks 70 then return 3.0
  else if ← pyGe marks 65 then return 2.7
  else if ← pyGe marks 61 then return 2.3
  else if ← pyGe marks 58 then return 2.0
  else if ← pyGe marks 55 then return 1.7
  else if ← pyGe marks 50 then return 1.0
  else return 0.0

/-- The accumulation loop computes the sums of quality points and of
credit hours (generalised over the accumulator for the induction). -/
lemma semLoop_foldl_eq (rows : List CourseRecord) (a : ℚ) (b : ℕ) :
    rows.foldl accumRow (a, b) =
      (a + (rows.map qualityPoints).sum, b + (rows.map CourseRecord.credits).sum) := by
  induction rows generalizing a b with
  | nil => simp
  | cons r rs ih =>
      simp only [List.foldl_cons, List.map_cons, List.sum_cons, accumRow, ih,
        qualityPoints, Prod.mk.injEq]
      constructor <;> [ring; omega]

/-- `total_points` is the sum of the rows' quality points. -/
lemma total_points_eq_sum (rows : List CourseRecord) :
    total_points rows = (rows.map qualityPoints).sum := by
  unfold total_points semLoop
  rw [semLoop_foldl_eq]
  simp

/-- `total_credits` is the sum of the rows' credit hours. -/
lemma total_credits_eq_sum (rows : List CourseRecord) :
    total_credits rows = (rows.map CourseRecord.credits).sum := by
  unfold total_credits semLoop
  rw [semLoop_foldl_eq]
  simp

/-- The program's guarded `new_cgpa` agrees with the spec's `combine`
contract: the `prev_credits > 0` guard and the `newTotalCredits > 0`
guard pick the same value, because when `prev_credits = 0` the weighted
blend collapses to the current GPA. -/
lemma new_cgpa_eq_combineSpec (pc cg : ℚ) (pcr cc : ℕ) :
    new_cgpa pc pcr cg cc = (combineSpec ⟨pc, pcr⟩ ⟨cg, cc⟩).cgpa := by
  simp only [new_cgpa, combineSpec]
  rcases Nat.eq_zero_or_pos pcr with h0 | hp
  · subst h0
    rcases Nat.eq_zero_or_pos cc with hc0 | hcp
    · subst hc0
      norm_num
    · have hne : (cc : ℚ) ≠ 0 := Nat.cast_ne_zero.mpr hcp.ne'
      rw [if_neg (lt_irrefl 0), if_pos (by omega : 0 + cc > 0)]
      push_cast
      field_simp
  · rw [if_pos hp, if_pos (by omega : pcr + cc > 0)]
    push_cast
    ring

/-- Folding a second semester summary into an already-combined state,
the way the projection code writes it out, equals a second application
of the spec's `combine`. -/
lemma double_combine_cgpa (pc cg pg : ℚ) (pcr tc ptc : ℕ) :
    (if pcr + tc + ptc > 0 then
        (new_cgpa pc pcr cg tc * ((pcr + tc : ℕ) : ℚ) + pg * (ptc : ℚ)) /
          (((pcr + tc : ℕ) : ℚ) + (ptc : ℚ))
      else pg) =
      (combineSpec (combineSpec ⟨pc, pcr⟩ ⟨cg, tc⟩) ⟨pg, ptc⟩).cgpa := by
  have hinner : combineSpec ⟨pc, pcr⟩ ⟨cg, tc⟩ =
      { cgpa := new_cgpa pc pcr cg tc, totalCredits := pcr + tc } := by
    have h := (new_cgpa_eq_combineSpec pc cg pcr tc).symm
    simp only [combineSpec] at h ⊢
    rw [h]
  rw [hinner]
  simp only [combineSpec]
  split_ifs with h1
  · push_cast
    ring
  · rfl

/-- Every branch of the marks table is nonnegative. -/
lemma marksToGpa_nonneg (m : ℚ) : 0 ≤ marks_to_gpa m := by
  unfold marks_to_gpa
  split_ifs <;> norm_num

/-- Every branch of the marks table is at most `4.0`. -/
lemma marksToGpa_le_four (m : ℚ) : marks_to_gpa m ≤ 4.0 := by
  unfold marks_to_gpa
  split_ifs <;> norm_num

/-- Marks of at least `85` score at least `4.0`. -/
lemma marksToGpa_lb_85 (m : ℚ) (h : 85 ≤ m) : 4.0 ≤ marks_to_gpa m := by
  unfold marks_to_gpa
  split_ifs <;> linarith

/-- Marks of at least `80` score at least `3.7`. -/
lemma marksToGpa_lb_80 (m : ℚ) (h : 80 ≤ m) : 3.7 ≤ marks_to_gpa m := by
  unfold marks_to_gpa
  split_ifs <;> linarith

/-- Marks of at least `75` score at least `3.3`. -/
lemma marksToGpa_lb_75 (m : ℚ) (h : 75 ≤ m) : 3.3 ≤ marks_to_gpa m := by
  unfold marks_to_gpa
  split_ifs <;> linarith

/-- Marks of at least `70` score at least `3.0`. -/
lemma marksToGpa_lb_70 (m : ℚ) (h : 70 ≤ m) : 3.0 ≤ marks_to_gpa m := by
  unfold marks_to_gpa
  split_ifs <;> linarith

/-- Marks of at least `65` score at least `2.7`. -/
lemma marksToGpa_lb_65 (m : ℚ) (h : 65 ≤ m) : 2.7 ≤ marks_to_gpa m := by
  unfold marks_to_gpa
  split_ifs <;> linarith

/-- Marks of at least `61` score at least `2.3`. -/
lemma marksToGpa_lb_61 (m : ℚ) (h : 61 ≤ m) : 2.3 ≤ marks_to_gpa m := by
  unfold marks_to_gpa
  split_ifs <;> linarith

/-- Marks of at least `58` score at least `2.0`. -/
lemma marksToGpa_lb_58 (m : ℚ) (h : 58 ≤ m) : 2.0 ≤ marks_to_gpa m := by
  unfold marks_to_gpa
  split_ifs <;> linarith

/-- Marks of at least `55` score at least `1.7`. -/
lemma marksToGpa_lb_55 (m : ℚ) (h : 55 ≤ m) : 1.7 ≤ marks_to_gpa m := by
  unfold marks_to_gpa
  split_ifs <;> linarith

/-- Marks of at least `50` score at least `1.0`. -/
lemma marksToGpa_lb_50 (m : ℚ) (h : 50 ≤ m) : 1.0 ≤ marks_to_gpa m := by
  unfold marks_to_gpa
  split_ifs <;> linarith

/-- Marks below `85` score at most `3.7`. -/
lemma marksToGpa_ub_85 (m : ℚ) (h : m < 85) : marks_to_gpa m ≤ 3.7 := by
  unfold marks_to_gpa
  split_ifs <;> linarith

/-- Marks below `80` score at most `3.3`. -/
lemma marksToGpa_ub_80 (m : ℚ) (h : m < 80) : marks_to_gpa m ≤ 3.3 := by
  unfold marks_to_gpa
  split_ifs <;> linarith

/-- Marks below `75` score at most `3.0`. -/
lemma marksToGpa_ub_75 (m : ℚ) (h : m < 75) : marks_to_gpa m ≤ 3.0 := by
  unfold marks_to_gpa
  split_ifs <;> linarith

/-- Marks below `70` score at most `2.7`. -/
lemma marksToGpa_ub_70 (m : ℚ) (h : m < 70) : marks_to_gpa m ≤ 2.7 := by
  unfold marks_to_gpa
  split_ifs <;> linarith

/-- Marks below `65` score at most `2.3`. -/
lemma marksToGpa_ub_65 (m : ℚ) (h : m < 65) : marks_to_gpa m ≤ 2.3 := by
  unfold marks_to_gpa
  split_ifs <;> linarith

/-- Marks below `61` score at most `2.0`. -/
lemma marksToGpa_ub_61 (m : ℚ) (h : m < 61) : marks_to_gpa m ≤ 2.0 := by
  unfold marks_to_gpa
  split_ifs <;> linarith

/-- Marks below `58` score at most `1.7`. -/
lemma marksToGpa_ub_58 (m : ℚ) (h : m < 58) : marks_to_gpa m ≤ 1.7 := by
  unfold marks_to_gpa
  split_ifs <;> linarith

/-- Marks below `55` score at most `1.0`. -/
lemma marksToGpa_ub_55 (m : ℚ) (h : m < 55) : marks_to_gpa m ≤ 1.0 := by
  unfold marks_to_gpa
  split_ifs <;> linarith

/-- Marks below `50` score at most `0`. -/
lemma marksToGpa_ub_50 (m : ℚ) (h : m < 50) : marks_to_gpa m ≤ 0 := by
  unfold marks_to_gpa
  split_ifs <;> linarith

/-- In `gpa_to_letter`, grade points of at least `3.7` give "A". -/
lemma letterEval_A (gp : ℚ) (h1 : 3.7 ≤ gp) : gpa_to_letter gp = "A" := by
  unfold gpa_to_letter
  split_ifs <;> first | rfl | (exfalso; linarith)

/-- In `gpa_to_letter`, grade points in [`3.3`, `3.7`) give "A-". -/
lemma letterEval_Aminus (gp : ℚ) (h1 : 3.3 ≤ gp) (h2 : gp < 3.7) : gpa_to_letter gp = "A-" := by
  unfold gpa_to_letter
  split_ifs <;> first | rfl | (exfalso; linarith)

/-- In `gpa_to_letter`, grade points in [`3.0`, `3.3`) give "B+". -/
lemma letterEval_Bplus (gp : ℚ) (h1 : 3.0 ≤ gp) (h2 : gp < 3.3) : gpa_to_letter gp = "B+" := by
  unfold gpa_to_letter
  split_ifs <;> first | rfl | (exfalso; linarith)

/-- In `gpa_to_letter`, grade points in [`2.7`, `3.0`) give "B". -/
lemma letterEval_B (gp : ℚ) (h1 : 2.7 ≤ gp) (h2 : gp < 3.0) : gpa_to_letter gp = "B" := by
  unfold gpa_to_letter
  split_ifs <;> first | rfl | (exfalso; linarith)

/-- In `gpa_to_letter`, grade points in [`2.3`, `2.7`) give "B-". -/
lemma letterEval_Bminus (gp : ℚ) (h1 : 2.3 ≤ gp) (h2 : gp < 2.7) : gpa_to_letter gp = "B-" := by
  unfold gpa_to_letter
  split_ifs <;> first | rfl | (exfalso; linarith)

/-- In `gpa_to_letter`, grade points in [`2.0`, `2.3`) give "C+". -/
lemma letterEval_Cplus (gp : ℚ) (h1 : 2.0 ≤ gp) (h2 : gp < 2.3) : gpa_to_letter gp = "C+" := by
  unfold gpa_to_letter
  split_ifs <;> first | rfl | (exfalso; linarith)

/-- In `gpa_to_letter`, grade points in [`1.7`, `2.0`) give "C". -/
lemma letterEval_C (gp : ℚ) (h1 : 1.7 ≤ gp) (h2 : gp < 2.0) : gpa_to_letter gp = "C" := by
  unfold gpa_to_letter
  split_ifs <;> first | rfl | (exfalso; linarith)

/-- In `gpa_to_letter`, grade points in [`1.0`, `1.7`) give "D". -/
lemma letterEval_D (gp : ℚ) (h1 : 1.0 ≤ gp) (h2 : gp < 1.7) : gpa_to_letter gp = "D" := by
  unfold gpa_to_letter
  split_ifs <;> first | rfl | (exfalso; linarith)

/-- In `gpa_to_letter`, grade points below `1.0` give "F". -/
lemma letterEval_F (gp : ℚ) (h2 : gp < 1.0) : gpa_to_letter gp = "F" := by
  unfold gpa_to_letter
  split_ifs <;> first | rfl | (exfalso; linarith)

/-- In `gpaToLetterSpec`, grade points of at least `3.7` give "A". -/
lemma specEval_A (gp : ℚ) (h1 : 3.7 ≤ gp) : gpaToLetterSpec gp = "A" := by
  unfold gpaToLetterSpec
  split_ifs <;> first | rfl | (exfalso; linarith)

/-- In `gpaToLetterSpec`, grade points in [`3.3`, `3.7`) give "A-". -/
lemma specEval_Aminus (gp : ℚ) (h1 : 3.3 ≤ gp) (h2 : gp < 3.7) : gpaToLetterSpec gp = "A-" := by
  unfold gpaToLetterSpec
  split_ifs <;> first | rfl | (exfalso; linarith)

/-- In `gpaToLetterSpec`, grade points in [`3.0`, `3.3`) give "B+". -/
lemma specEval_Bplus (gp : ℚ) (h1 : 3.0 ≤ gp) (h2 : gp < 3.3) : gpaToLetterSpec gp = "B+" := by
  unfold gpaToLetterSpec
  split_ifs <;> first | rfl | (exfalso; linarith)

/-- In `gpaToLetterSpec`, grade points in [`2.7`, `3.0`) give "B". -/
lemma specEval_B (gp : ℚ) (h1 : 2.7 ≤ gp) (h2 : gp < 3.0) : gpaToLetterSpec gp = "B" := by
  unfold gpaToLetterSpec
  split_ifs <;> first | rfl | (exfalso; linarith)

/-- In `gpaToLetterSpec`, grade points in [`2.3`, `2.7`) give "B-". -/
lemma specEval_Bminus (gp : ℚ) (h1 : 2.3 ≤ gp) (h2 : gp < 2.7) : gpaToLetterSpec gp = "B-" := by
  unfold gpaToLetterSpec
  split_ifs <;> first | rfl | (exfalso; linarith)

/-- In `gpaToLetterSpec`, grade points in [`2.0`, `2.3`) give "C+". -/
lemma specEval_Cplus (gp : ℚ) (h1 : 2.0 ≤ gp) (h2 : gp < 2.3) : gpaToLetterSpec gp = "C+" := by
  unfold gpaToLetterSpec
  split_ifs <;> first | rfl | (exfalso; linarith)

/-- In `gpaToLetterSpec`, grade points in [`1.7`, `2.0`) give "C". -/
lemma specEval_C (gp : ℚ) (h1 : 1.7 ≤ gp) (h2 : gp < 2.0) : gpaToLetterSpec gp = "C" := by
  unfold gpaToLetterSpec
  split_ifs <;> first | rfl | (exfalso; linarith)

/-- In `gpaToLetterSpec`, grade points in [`1.0`, `1.7`) give "D". -/
lemma specEval_D (gp : ℚ) (h1 : 1.0 ≤ gp) (h2 : gp < 1.7) : gpaToLetterSpec gp = "D" := by
  unfold gpaToLetterSpec
  split_ifs <;> first | rfl | (exfalso; linarith)

/-- In `gpaToLetterSpec`, grade points below `1.0` give "F". -/
lemma specEval_F (gp : ℚ) (h2 : gp < 1.0) : gpaToLetterSpec gp = "F" := by
  unfold gpaToLetterSpec
  split_ifs <;> first | rfl | (exfalso; linarith)

/-- C1: for every list of course rows, the semester GPA is the sum of
quality points (grade point times credit hours per row) divided by the
sum of credit hours when that sum is positive, and `0` when the total
credit hours are `0`; and the reported `totalCredits` is the sum of the
rows' credit hours. -/
theorem c1_semester_gpa_is_weighted_average (rows : List CourseRecord) :
    (computeSemesterGPA rows).totalCredits = (rows.map CourseRecord.credits).sum ∧
    (computeSemesterGPA rows).gpa =
      (if 0 < (rows.map CourseRecord.credits).sum then
        (rows.map qualityPoints).sum / ((rows.map CourseRecord.credits).sum : ℚ)
      else 0) := by
  refine ⟨total_credits_eq_sum rows, ?_⟩
  simp only [computeSemesterGPA, current_gpa, total_points_eq_sum,
    total_credits_eq_sum, gt_iff_lt]
  norm_num

/-- C2: the program's CGPA update equals the spec's `combine` formula —
the credit-weighted blend whenever the combined credit total is
positive, the current semester's GPA otherwise — and in particular with
zero prior credits the result is exactly the current semester's GPA. -/
theorem c2_new_cgpa_matches_combine (pc cg : ℚ) (pcr cc : ℕ) :
    new_cgpa pc pcr cg cc = (combineSpec ⟨pc, pcr⟩ ⟨cg, cc⟩).cgpa ∧
    new_cgpa pc 0 cg cc = cg := by
  exact ⟨new_cgpa_eq_combineSpec pc cg pcr cc, by simp [new_cgpa]⟩

/-- C4: every mark is mapped to a grade point between `0` and `4.0`. -/
theorem c4_grade_point_bounds (m : ℚ) :
    0 ≤ marks_to_gpa m ∧ marks_to_gpa m ≤ 4.0 := by
  unfold marks_to_gpa
  split_ifs <;> norm_num

/-- C5: the marks-to-grade-point mapping is monotonic non-decreasing. -/
theorem c5_marks_to_gpa_monotone (m1 m2 : ℚ) (h : m1 ≤ m2) :
    marks_to_gpa m1 ≤ marks_to_gpa m2 := by
  rcases le_or_lt 85 m1 with h1 | h1
  · exact le_trans (marksToGpa_le_four m1) (marksToGpa_lb_85 m2 (le_trans h1 h))
  rcases le_or_lt 80 m1 with h2 | h2
  · exact le_trans (marksToGpa_ub_85 m1 h1) (marksToGpa_lb_80 m2 (le_trans h2 h))
  rcases le_or_lt 75 m1 with h3 | h3
  · exact le_trans (marksToGpa_ub_80 m1 h2) (marksToGpa_lb_75 m2 (le_trans h3 h))
  rcases le_or_lt 70 m1 with h4 | h4
  · exact le_trans (marksToGpa_ub_75 m1 h3) (marksToGpa_lb_70 m2 (le_trans h4 h))
  rcases le_or_lt 65 m1 with h5 | h5
  · exact le_trans (marksToGpa_ub_70 m1 h4) (marksToGpa_lb_65 m2 (le_trans h5 h))
  rcases le_or_lt 61 m1 with h6 | h6
  · exact le_trans (marksToGpa_ub_65 m1 h5) (marksToGpa_lb_61 m2 (le_trans h6 h))
  rcases le_or_lt 58 m1 with h7 | h7
  · exact le_trans (marksToGpa_ub_61 m1 h6) (marksToGpa_lb_58 m2 (le_trans h7 h))
  rcases le_or_lt 55 m1 with h8 | h8
  · exact le_trans (marksToGpa_ub_58 m1 h7) (marksToGpa_lb_55 m2 (le_trans h8 h))
  rcases le_or_lt 50 m1 with h9 | h9
  · exact le_trans (marksToGpa_ub_55 m1 h8) (marksToGpa_lb_50 m2 (le_trans h9 h))
  · exact le_trans (marksToGpa_ub_50 m1 h9) (marksToGpa_nonneg m2)

/-- Witness for C5 at marks 40 ≤ 90. -/
theorem c5_marks_to_gpa_monotone_witness :
    (40 : ℚ) ≤ 90 ∧ marks_to_gpa 40 ≤ marks_to_gpa 90 :=
  ⟨by norm_num, c5_marks_to_gpa_monotone 40 90 (by norm_num)⟩

/-- C10: combining a prior state holding positive credits with a
zero-credit semester leaves the CGPA exactly unchanged. -/
theorem c10_zero_credit_semester_identity (pc cg : ℚ) (pcr : ℕ)
    (h : 0 < pcr) :
    new_cgpa pc pcr cg 0 = pc := by
  unfold new_cgpa
  rw [if_pos h]
  have hne : (pcr : ℚ) ≠ 0 := Nat.cast_ne_zero.mpr h.ne'
  push_cast
  field_simp

/-- Witness for C10: prior CGPA 3 over 30 credits, empty semester. -/
theorem c10_zero_credit_semester_identity_witness :
    0 < 30 ∧ new_cgpa 3 30 4 0 = 3 :=
  ⟨by decide, c10_zero_credit_semester_identity 3 4 30 (by decide)⟩

/-- C3 counterexample: the claim expects marks of 85 (Physics) to map
to grade point 3.70, but the table's top band is `marks >= 85`, so 85
maps to 4.0. -/
theorem c3_counterexample :
    marks_to_gpa 85 = 4.0 ∧ (4.0 : ℚ) ≠ 3.7 := by
  constructor
  · norm_num [marks_to_gpa]
  · norm_num

/-- C3 amended: for the rows [("Math", 92, 3), ("Physics", 85, 3),
("Chemistry", 78, 3)] the grade points are [4.00, 4.00, 3.30] and the
credit-weighted semester GPA is the arithmetic mean of the three grade
points, since all credits are equal. -/
theorem c3_scenario_amended :
    marks_to_gpa 92 = 4.0 ∧ marks_to_gpa 85 = 4.0 ∧ marks_to_gpa 78 = 3.3 ∧
    (computeSemesterGPA
        [⟨"Math", 92, 3⟩, ⟨"Physics", 85, 3⟩, ⟨"Chemistry", 78, 3⟩]).gpa =
      (marks_to_gpa 92 + marks_to_gpa 85 + marks_to_gpa 78) / 3 := by
  norm_num [marks_to_gpa, computeSemesterGPA, current_gpa, total_points,
    total_credits, semLoop, accumRow, List.foldl]

/-- C6: the semester computation returns the same summary (same GPA and
same total credits) on any reordering of the course rows. -/
theorem c6_reorder_invariant (rows1 rows2 : List CourseRecord)
    (h : rows1.Perm rows2) :
    computeSemesterGPA rows1 = computeSemesterGPA rows2 := by
  have hq : (rows1.map qualityPoints).sum = (rows2.map qualityPoints).sum :=
    (h.map qualityPoints).sum_eq
  have hc : (rows1.map CourseRecord.credits).sum =
      (rows2.map CourseRecord.credits).sum :=
    (h.map CourseRecord.credits).sum_eq
  simp [computeSemesterGPA, current_gpa, total_points_eq_sum,
    total_credits_eq_sum, hq, hc]

/-- Witness for C6: swapping two concrete rows leaves the summary
unchanged. -/
theorem c6_reorder_invariant_witness :
    ([{ name := "Math", marks := 92, credits := 3 },
      { name := "Physics", marks := 85, credits := 4 }] :
        List CourseRecord).Perm
      [{ name := "Physics", marks := 85, credits := 4 },
       { name := "Math", marks := 92, credits := 3 }] ∧
    computeSemesterGPA
        [{ name := "Math", marks := 92, credits := 3 },
         { name := "Physics", marks := 85, credits := 4 }] =
      computeSemesterGPA
        [{ name := "Physics", marks := 85, credits := 4 },
         { name := "Math", marks := 92, credits := 3 }] :=
  ⟨List.Perm.swap _ _ _, c6_reorder_invariant _ _ (List.Perm.swap _ _ _)⟩

/-- C7: the projected overall CGPA is exactly two successive stateless
applications of the spec's `combine`: prior history with the current
semester first, then that result with the hypothetical future
semester. -/
theorem c7_projection_is_double_combine (pc : ℚ) (pcr : ℕ)
    (rows proj_rows : List CourseRecord) :
    projected_overall_cgpa pc pcr rows proj_rows =
      (combineSpec (combineSpec ⟨pc, pcr⟩ (computeSemesterGPA rows))
          (computeSemesterGPA proj_rows)).cgpa :=
  double_combine_cgpa pc (current_gpa rows) (current_gpa proj_rows) pcr
    (total_credits rows) (total_credits proj_rows)

/-- C8 counterexample: an absent (`None`) marks value is not treated as
0 — the first `marks >= 85` comparison raises a `TypeError`, so the
mapping does not return the lowest grade point. -/
theorem c8_counterexample :
    marks_to_gpa_dyn PyVal.none = Except.error "TypeError" ∧
    marks_to_gpa_dyn PyVal.none ≠ Except.ok 0.0 :=
  ⟨rfl, fun hcontra => Except.noConfusion hcontra⟩

set_option maxHeartbeats 1600000 in
/-- C8 amended: on every numeric input the mapping returns the table's
grade point and never raises, but a non-numeric or absent input is not
coerced to 0: the comparison raises a `TypeError`. -/
theorem c8_numeric_total_nonnumeric_raises (m : ℚ) :
    marks_to_gpa_dyn (PyVal.num m) = Except.ok (marks_to_gpa m) ∧
    marks_to_gpa_dyn PyVal.none = Except.error "TypeError" ∧
    marks_to_gpa_dyn (PyVal.str "abc") = Except.error "TypeError" := by
  refine ⟨?_, rfl, rfl⟩
  simp only [marks_to_gpa_dyn, pyGe, marks_to_gpa, Bind.bind, Except.bind,
    decide_eq_true_eq, pure, Except.pure]
  split_ifs <;> rfl

/-- C9: the grade-point-to-letter mapping is the piecewise-constant
step function with thresholds, each inclusive on its lower bound, at
3.7 → "A", 3.3 → "A-", 3.0 → "B+", 2.7 → "B", 2.3 → "B-", 2.0 → "C+",
1.7 → "C", 1.0 → "D", and "F" below them all. -/
theorem c9_letter_step_function (gp : ℚ) :
    gpa_to_letter gp = gpaToLetterSpec gp := by
  rcases le_or_lt (3.7 : ℚ) gp with h1 | h1
  · rw [letterEval_A gp h1, specEval_A gp h1]
  rcases le_or_lt (3.3 : ℚ) gp with h2 | h2
  · rw [letterEval_Aminus gp h2 h1, specEval_Aminus gp h2 h1]
  rcases le_or_lt (3.0 : ℚ) gp with h3 | h3
  · rw [letterEval_Bplus gp h3 h2, specEval_Bplus gp h3 h2]
  rcases le_or_lt (2.7 : ℚ) gp with h4 | h4
  · rw [letterEval_B gp h4 h3, specEval_B gp h4 h3]
  rcases le_or_lt (2.3 : ℚ) gp with h5 | h5
  · rw [letterEval_Bminus gp h5 h4, specEval_Bminus gp h5 h4]
  rcases le_or_lt (2.0 : ℚ) gp with h6 | h6
  · rw [letterEval_Cplus gp h6 h5, specEval_Cplus gp h6 h5]
  rcases le_or_lt (1.7 : ℚ) gp with h7 | h7
  · rw [letterEval_C gp h7 h6, specEval_C gp h7 h6]
  rcases le_or_lt (1.0 : ℚ) gp with h8 | h8
  · rw [letterEval_D gp h8 h7, specEval_D gp h8 h7]
  · rw [letterEval_F gp h8, specEval_F gp h8]

end GpaCalc
